import Mathlib

/-!
Shallow embedding of the streaming-session orchestrator (`src/app.py`):
the session start/stop handlers, the OAuth code-exchange paths, the
log database query, the ffmpeg supervisor's logging, the YouTube
provisioning calls, and the in-memory live-log callback.  Timestamps
are modelled as naturals (ISO-8601 strings compare chronologically),
and remote/process behaviour is passed in as explicit environment
parameters.
-/

namespace StreamApp

open List

/-! ## Session orchestrator state (`main`, status & control column) -/

/-- The ambient `st.session_state` fields touched by the start/stop
streaming buttons, plus counters for the externally visible effects:
how many ffmpeg encoder threads were spawned and how many
`pkill ffmpeg` invocations were attempted. -/
structure OrchState where
  streaming : Bool
  stream_start_time : Option Nat
  live_logs : List String
  ffmpeg_threads : Nat
  kill_attempts : Nat
  deriving Repr, DecidableEq

/-- Outcome of a click on the Start Streaming button: the two error
messages the handler can show, or a successful start. -/
inductive StartResult where
  | noVideo
  | noKey
  | started
  deriving Repr, DecidableEq

/-- The Start Streaming button handler (`main`, lines 1162-1205):
reject when no video is selected, then when the stream key is empty;
otherwise mark streaming, record the start time, reset the live log
buffer and spawn a new ffmpeg thread.  No check of the `streaming`
flag is performed and no existing process is killed. -/
def startStreamingClick (s : OrchState) (video_path : Option String)
    (stream_key : String) (now : Nat) : StartResult × OrchState :=
  match video_path with
  | none => (StartResult.noVideo, s)
  | some _ =>
    if stream_key = "" then (StartResult.noKey, s)
    else
      (StartResult.started,
        { s with
          streaming := true
          stream_start_time := some now
          live_logs := []
          ffmpeg_threads := s.ffmpeg_threads + 1 })

/-- The Stop Streaming button handler (`main`, lines 1207-1216):
unconditionally clears the streaming flag, deletes the start time and
runs `pkill ffmpeg` (counted in `kill_attempts`).  There is no
already-stopped check and no failure path. -/
def stopStreamingClick (s : OrchState) : OrchState :=
  { s with
    streaming := false
    stream_start_time := none
    kill_attempts := s.kill_attempts + 1 }

/-! ## OAuth authorization-code exchange (`auto_process_auth_code`,
`exchange_code_for_tokens`, and the manual exchange button in `main`) -/

/-- Token material returned by the token endpoint
(`exchange_code_for_tokens` response). -/
structure TokenSet where
  access_token : String
  refresh_token : Option String
  deriving Repr, DecidableEq

/-- The `st.session_state` fields relevant to code exchange:
the process-scoped set of consumed codes, the stored tokens and the
ordered list of codes actually sent to the token endpoint. -/
structure AuthState where
  processed_codes : List String
  youtube_tokens : Option TokenSet
  exchange_calls : List String
  deriving Repr, DecidableEq

/-- `auto_process_auth_code` (lines 567-626): when a `code` query
parameter is present and not in `processed_codes`, and an OAuth config
is loaded, the code is sent to the token endpoint (`env`); on success
the tokens are stored and the code is added to `processed_codes`.
A code already in `processed_codes` is ignored. -/
def auto_process_auth_code (s : AuthState) (query_code : Option String)
    (has_oauth_config : Bool) (env : String → Option TokenSet) : AuthState :=
  match query_code with
  | none => s
  | some code =>
    if code ∈ s.processed_codes then s
    else if has_oauth_config then
      let s1 := { s with exchange_calls := s.exchange_calls ++ [code] }
      match env code with
      | some tok =>
        { s1 with
          youtube_tokens := some tok
          processed_codes := s1.processed_codes ++ [code] }
      | none => s1
    else s

/-- The manual Exchange Code for Tokens button (`main`, lines 738-772):
a non-empty code is sent to the token endpoint with no consumed-codes
check; on success the tokens are stored.  `processed_codes` is neither
consulted nor updated on this path. -/
def manualExchangeClick (s : AuthState) (auth_code : String)
    (env : String → Option TokenSet) : AuthState :=
  if auth_code = "" then s
  else
    let s1 := { s with exchange_calls := s.exchange_calls ++ [auth_code] }
    match env auth_code with
    | some tok => { s1 with youtube_tokens := some tok }
    | none => s1

/-! ## Log database (`log_to_database` / `get_logs_from_database`) -/

/-- One row of the `streaming_logs` table.  The ISO-8601 timestamp
string is modelled as a natural number (ISO strings compare
lexicographically in chronological order). -/
structure DBLog where
  timestamp : Nat
  session_id : String
  log_type : String
  message : String
  deriving Repr, DecidableEq

/-- The ordering used by `ORDER BY timestamp DESC`: `a` precedes `b`
when `a`'s timestamp is at least `b`'s. -/
def dbDescLe (a b : DBLog) : Prop := b.timestamp ≤ a.timestamp

instance : DecidableRel dbDescLe := fun a b => Nat.decLe b.timestamp a.timestamp

instance : IsTotal DBLog dbDescLe :=
  ⟨fun a b => Nat.le_total b.timestamp a.timestamp⟩

instance : IsTrans DBLog dbDescLe :=
  ⟨fun _ _ _ h1 h2 => Nat.le_trans h2 h1⟩

/-- The row selection of `get_logs_from_database`: the `WHERE
session_id = ?` branch when a session id is given, all rows
otherwise. -/
def logRows (db : List DBLog) (session_id : Option String) : List DBLog :=
  match session_id with
  | some sid => db.filter (fun e => e.session_id = sid)
  | none => db

/-- `get_logs_from_database` (lines 186-213): filter by session id when
one is given, order by timestamp descending (`ORDER BY timestamp DESC`),
and return at most `limit` rows. -/
def get_logs_from_database (db : List DBLog) (session_id : Option String)
    (limit : Nat) : List DBLog :=
  (List.insertionSort dbDescLe (logRows db session_id)).take limit

/-- Boolean check that a list of timestamps is non-decreasing
(the order the claim asserts for query results). -/
def nonDecreasingB : List Nat → Bool
  | [] => true
  | [_] => true
  | a :: b :: t => decide (a ≤ b) && nonDecreasingB (b :: t)

/-! ## Encoder supervisor (`run_ffmpeg`, lines 522-565) -/

/-- `output_url`: the custom RTMP URL if given, otherwise the YouTube
ingest URL carrying the secret stream key. -/
def ffmpeg_output_url (stream_key : String) (rtmp_url : Option String) : String :=
  match rtmp_url with
  | some u => u
  | none => "rtmp://a.rtmp.youtube.com/live2/" ++ stream_key

/-- The ffmpeg command line built in `run_ffmpeg`: the fixed encoding
profile, then the optional shorts rescale, then the output URL as the
final argument. -/
def ffmpeg_cmd (video_path : String) (is_shorts : Bool) (output_url : String) :
    List String :=
  ["ffmpeg", "-re", "-stream_loop", "-1", "-i", video_path,
   "-c:v", "libx264", "-preset", "veryfast", "-b:v", "2500k",
   "-maxrate", "2500k", "-bufsize", "5000k",
   "-g", "60", "-keyint_min", "60",
   "-c:a", "aac", "-b:a", "128k",
   "-f", "flv"] ++
  (if is_shorts then ["-vf", "scale=720:1280"] else []) ++
  [output_url]

/-- How the launched ffmpeg process behaves: it either emits some
output lines and exits, or an exception (message `e`) is raised after
some lines were read. -/
inductive FFmpegOutcome where
  | exits (lines : List String)
  | raises (lines : List String) (e : String)
  deriving Repr, DecidableEq

/-- The terminal message emitted in the `finally` block of
`run_ffmpeg` (emoji prefix elided). -/
def ffmpeg_final_msg : String := "Streaming session ended"

/-- Python's `str.strip()`: remove leading and trailing whitespace. -/
def pyStrip (s : String) : String :=
  String.mk
    (((s.data.dropWhile Char.isWhitespace).reverse.dropWhile
        Char.isWhitespace).reverse)

/-- The lines `run_ffmpeg` hands to `log_callback`, in order: the
start message built from the first 8 command tokens (the output URL is
deliberately omitted), every process output line stripped and
forwarded verbatim, then the completion or error message, then the
terminal message from the `finally` block. -/
def run_ffmpeg_logs (video_path stream_key : String) (is_shorts : Bool)
    (rtmp_url : Option String) (outcome : FFmpegOutcome) : List String :=
  let output_url := ffmpeg_output_url stream_key rtmp_url
  let cmd := ffmpeg_cmd video_path is_shorts output_url
  let start_msg :=
    "Starting FFmpeg: " ++ String.intercalate " " (cmd.take 8) ++
    "... [RTMP URL hidden for security]"
  match outcome with
  | FFmpegOutcome.exits ls =>
    start_msg :: (ls.map pyStrip ++
      ["Streaming completed successfully", ffmpeg_final_msg])
  | FFmpegOutcome.raises ls e =>
    start_msg :: (ls.map pyStrip ++
      ["FFmpeg Error: " ++ e, ffmpeg_final_msg])

/-- `pat` occurs as a contiguous substring of `s`. -/
def containsStr (s pat : String) : Bool := decide (pat.data <:+: s.data)

/-! ## YouTube provisioning (`create_live_stream`,
`get_broadcast_stream_key`, and the Create YouTube Live handler) -/

/-- Response of the `liveStreams().insert` call. -/
structure StreamResponse where
  id : String
  streamName : String
  ingestionAddress : String
  deriving Repr, DecidableEq

/-- The broadcast body assembled by `create_live_stream` for the
`liveBroadcasts().insert` call. -/
structure BroadcastBody where
  title : String
  description : String
  scheduledStartTime : Nat
  privacyStatus : String
  selfDeclaredMadeForKids : Bool
  enableAutoStart : Bool
  enableAutoStop : Bool
  tags : Option (List String)
  categoryId : Option String
  deriving Repr, DecidableEq

/-- Behaviour of the remote API during one `create_live_stream` call:
each step either succeeds with the platform's response or raises. -/
structure YTEnv where
  streamInsert : Option StreamResponse
  broadcastInsert : Option String
  bindOk : Bool
  deriving Repr, DecidableEq

/-- One remote call issued during `create_live_stream`, in issue
order. -/
inductive APICall where
  | streamInsert (title : String)
  | broadcastInsert (body : BroadcastBody)
  | bind (broadcastId streamId : String)
  deriving Repr, DecidableEq

/-- The dictionary returned by a successful `create_live_stream`. -/
structure LiveInfo where
  stream_key : String
  stream_url : String
  broadcast_id : String
  stream_id : String
  watch_url : String
  studio_url : String
  deriving Repr, DecidableEq

/-- `create_live_stream` (lines 396-467): create the stream resource,
assemble the broadcast body (tags and category only when non-empty,
auto-start/auto-stop always on), create the broadcast, then bind the
broadcast to the created stream's id.  Any raising step makes the call
return `none`; the trace records the calls actually issued. -/
def create_live_stream (env : YTEnv) (title description : String)
    (scheduled_start_time : Nat) (tags : List String) (category_id : String)
    (privacy_status : String) (made_for_kids : Bool) :
    Option LiveInfo × List APICall :=
  match env.streamInsert with
  | none => (none, [APICall.streamInsert (title ++ " - Stream")])
  | some s =>
    let body : BroadcastBody :=
      { title := title
        description := description
        scheduledStartTime := scheduled_start_time
        privacyStatus := privacy_status
        selfDeclaredMadeForKids := made_for_kids
        enableAutoStart := true
        enableAutoStop := true
        tags := if tags = [] then none else some tags
        categoryId := if category_id = "" then none else some category_id }
    match env.broadcastInsert with
    | none =>
      (none, [APICall.streamInsert (title ++ " - Stream"),
              APICall.broadcastInsert body])
    | some bid =>
      let trace := [APICall.streamInsert (title ++ " - Stream"),
                    APICall.broadcastInsert body,
                    APICall.bind bid s.id]
      if env.bindOk then
        (some { stream_key := s.streamName
                stream_url := s.ingestionAddress
                broadcast_id := bid
                stream_id := s.id
                watch_url := "https://www.youtube.com/watch?v=" ++ bid
                studio_url :=
                  "https://studio.youtube.com/video/" ++ bid ++ "/livestreaming" },
         trace)
      else (none, trace)

/-- The Create YouTube Live button handler (`main`, lines 925-940):
read the wall clock, schedule for 30 seconds later, and call
`create_live_stream` with the form metadata. -/
def createYouTubeLiveClick (env : YTEnv) (now : Nat) (title description : String)
    (tags : List String) (category_id privacy_status : String)
    (made_for_kids : Bool) : Option LiveInfo × List APICall :=
  create_live_stream env title description (now + 30) tags category_id
    privacy_status made_for_kids

/-- A broadcast item as returned by `liveBroadcasts().list`:
its id and the `boundStreamId` of its `contentDetails` (absent when
never bound). -/
structure BroadcastItem where
  id : String
  boundStreamId : Option String
  deriving Repr, DecidableEq

/-- A stream item as returned by `liveStreams().list`: its id and the
`ingestionInfo` of its `cdn` section. -/
structure StreamItem where
  id : String
  streamName : String
  ingestionAddress : String
  deriving Repr, DecidableEq

/-- The platform's resource tables as seen by the two list calls in
`get_broadcast_stream_key`. -/
structure YTListEnv where
  broadcasts : List BroadcastItem
  streams : List StreamItem
  deriving Repr, DecidableEq

/-- The dictionary returned by a successful `get_broadcast_stream_key`. -/
structure StreamKeyInfo where
  stream_key : String
  stream_url : String
  stream_id : String
  deriving Repr, DecidableEq

/-- `get_broadcast_stream_key` (lines 484-520): list the broadcast by
id (`none` when absent), read its `boundStreamId` (`none` when unbound
or falsy), list the bound stream (`none` when absent), and only then
return the populated key/url/id triple. -/
def get_broadcast_stream_key (env : YTListEnv) (broadcast_id : String) :
    Option StreamKeyInfo :=
  match (env.broadcasts.filter (fun b => b.id = broadcast_id)).head? with
  | none => none
  | some b =>
    match b.boundStreamId with
    | none => none
    | some sid =>
      if sid = "" then none
      else
        match (env.streams.filter (fun s => s.id = sid)).head? with
        | none => none
        | some s =>
          some { stream_key := s.streamName
                 stream_url := s.ingestionAddress
                 stream_id := sid }

/-! ## In-memory live-log buffer (`log_callback` in `main`,
lines 1189-1195) -/

/-- The live-log callback: append the timestamped message, then keep
only the last 100 entries (`[-100:]`) when the buffer exceeds 100. -/
def log_callback (live_logs : List String) (now_str msg : String) :
    List String :=
  let l := live_logs ++ ["[" ++ now_str ++ "] " ++ msg]
  if l.length > 100 then l.drop (l.length - 100) else l

/-! ## Theorems -/

/-- A state with one session already active and one encoder running. -/
def c1state : OrchState :=
  { streaming := true
    stream_start_time := some 0
    live_logs := []
    ffmpeg_threads := 1
    kill_attempts := 0 }

/-- C1 counterexample: starting while a session is active does NOT
return a conflict error — with a video and key selected the handler
reports success and a second encoder thread is spawned, so two
encoders run concurrently. -/
theorem c1_start_no_conflict_check :
    (startStreamingClick c1state (some "demo.mp4") "ABCD-1234-EFGH" 5).1 =
      StartResult.started ∧
    (startStreamingClick c1state (some "demo.mp4") "ABCD-1234-EFGH" 5).2.ffmpeg_threads
      = 2 ∧
    (startStreamingClick c1state (some "demo.mp4") "ABCD-1234-EFGH" 5).2.streaming
      = true := by
  decide

/-- C1 (amended): starting while a session is already active performs
no conflict check: with a selected video and a non-empty key it
returns success, resets the live logs and start time, and spawns an
additional encoder thread; the existing encoder is left untouched
(no kill is attempted) but two encoders then run concurrently. -/
theorem c1_start_while_active_spawns_second_encoder (s : OrchState)
    (v key : String) (now : Nat) (_hactive : s.streaming = true)
    (hkey : key ≠ "") :
    startStreamingClick s (some v) key now =
      (StartResult.started,
       { s with
         streaming := true
         stream_start_time := some now
         live_logs := []
         ffmpeg_threads := s.ffmpeg_threads + 1 }) ∧
    (startStreamingClick s (some v) key now).2.kill_attempts =
      s.kill_attempts := by
  refine ⟨?_, ?_⟩ <;> simp [startStreamingClick, hkey]

/-- Witness for `c1_start_while_active_spawns_second_encoder` at the
concrete active state. -/
theorem c1_start_while_active_witness :
    c1state.streaming = true ∧ "K" ≠ "" ∧
    (startStreamingClick c1state (some "demo.mp4") "K" 5 =
      (StartResult.started,
       { c1state with
         streaming := true
         stream_start_time := some 5
         live_logs := []
         ffmpeg_threads := c1state.ffmpeg_threads + 1 }) ∧
     (startStreamingClick c1state (some "demo.mp4") "K" 5).2.kill_attempts =
       c1state.kill_attempts) :=
  ⟨rfl, by decide,
   c1_start_while_active_spawns_second_encoder c1state "demo.mp4" "K" 5 rfl
     (by decide)⟩

/-- A state with an active session, used to exercise the stop handler. -/
def c2state : OrchState :=
  { streaming := true
    stream_start_time := some 3
    live_logs := []
    ffmpeg_threads := 1
    kill_attempts := 0 }

/-- C2 counterexample: the second of two consecutive stop invocations
still attempts a process kill — `pkill ffmpeg` runs unconditionally on
every click, so the kill counter goes from 1 to 2. -/
theorem c2_second_stop_still_kills :
    (stopStreamingClick c2state).kill_attempts = 1 ∧
    (stopStreamingClick (stopStreamingClick c2state)).kill_attempts = 2 := by
  decide

/-- C2 (amended): stopping twice in succession is idempotent on the
session status (the streaming flag, start time and live logs are
unchanged by the second call) and the second call also succeeds (there
is no failure path), but a process kill is attempted on every
invocation, including the second. -/
theorem c2_double_stop_idempotent_state_but_kills (s : OrchState) :
    (stopStreamingClick (stopStreamingClick s)).streaming = false ∧
    (stopStreamingClick (stopStreamingClick s)).streaming =
      (stopStreamingClick s).streaming ∧
    (stopStreamingClick (stopStreamingClick s)).stream_start_time =
      (stopStreamingClick s).stream_start_time ∧
    (stopStreamingClick (stopStreamingClick s)).live_logs =
      (stopStreamingClick s).live_logs ∧
    (stopStreamingClick (stopStreamingClick s)).kill_attempts =
      (stopStreamingClick s).kill_attempts + 1 := by
  simp [stopStreamingClick]

/-- An auth state in which code `CODE1` has already been successfully
exchanged (it is in the consumed set). -/
def c3state : AuthState :=
  { processed_codes := ["CODE1"]
    youtube_tokens := none
    exchange_calls := [] }

/-- A token endpoint that accepts every code. -/
def c3env : String → Option TokenSet :=
  fun _ => some { access_token := "at", refresh_token := some "rt" }

/-- C3 counterexample: the manual Exchange Code button re-exchanges a
code that is already in the consumed set — a second token-endpoint
call is issued for `CODE1`, so exchange is not at-most-once per code. -/
theorem c3_manual_path_replays_consumed_code :
    "CODE1" ∈ c3state.processed_codes ∧
    (manualExchangeClick c3state "CODE1" c3env).exchange_calls = ["CODE1"] := by
  decide

/-- C3 (amended): replay protection exists only on the URL
auto-process path: there, a code already in the process-scoped
consumed set is ignored (the state is unchanged and no token-endpoint
call is made); the manual code-input path performs no such check and
re-exchanges a previously consumed code. -/
theorem c3_auto_path_ignores_consumed_code (s : AuthState) (code : String)
    (cfg : Bool) (env : String → Option TokenSet)
    (h : code ∈ s.processed_codes) :
    auto_process_auth_code s (some code) cfg env = s ∧
    (auto_process_auth_code s (some code) cfg env).exchange_calls =
      s.exchange_calls := by
  refine ⟨?_, ?_⟩ <;> simp [auto_process_auth_code, h]

/-- Witness for `c3_auto_path_ignores_consumed_code` at the concrete
consumed code. -/
theorem c3_auto_path_witness :
    "CODE1" ∈ c3state.processed_codes ∧
    (auto_process_auth_code c3state (some "CODE1") true c3env = c3state ∧
     (auto_process_auth_code c3state (some "CODE1") true c3env).exchange_calls =
       c3state.exchange_calls) :=
  ⟨by decide,
   c3_auto_path_ignores_consumed_code c3state "CODE1" true c3env (by decide)⟩

/-- A log table with two rows of one session, emitted at times 1
and 2. -/
def c4db : List DBLog :=
  [{ timestamp := 1, session_id := "s1", log_type := "INFO",
     message := "Streaming started" },
   { timestamp := 2, session_id := "s1", log_type := "FFMPEG",
     message := "frame=1" }]

/-- C4 counterexample: the session-scoped query returns the two rows
newest-first (`ORDER BY timestamp DESC`), i.e. timestamps `[2, 1]`,
which is not non-decreasing and reverses emission order. -/
theorem c4_query_not_nondecreasing :
    (get_logs_from_database c4db (some "s1") 100).map (fun e => e.timestamp) =
      [2, 1] ∧
    nonDecreasingB
      ((get_logs_from_database c4db (some "s1") 100).map
        (fun e => e.timestamp)) = false := by
  decide

/-- C4 (amended): a session-scoped log query returns entries in
non-increasing timestamp order (newest first — the reverse of emission
order for distinct timestamps), at most `limit` of them, and every
returned entry is a row of the table belonging to the requested
session. -/
theorem c4_query_descending_of_session (db : List DBLog)
    (sid : Option String) (limit : Nat) :
    List.Sorted dbDescLe (get_logs_from_database db sid limit) ∧
    (get_logs_from_database db sid limit).length ≤ limit ∧
    ∀ e ∈ get_logs_from_database db sid limit,
      e ∈ db ∧ ∀ s, sid = some s → e.session_id = s := by
  unfold get_logs_from_database
  refine ⟨?_, ?_, ?_⟩
  · exact (List.sorted_insertionSort dbDescLe (logRows db sid)).sublist
      (List.take_sublist _ _)
  · rw [List.length_take]
    exact min_le_left _ _
  · intro e he
    have he2 : e ∈ logRows db sid :=
      (List.mem_insertionSort dbDescLe).mp (List.mem_of_mem_take he)
    cases sid with
    | none => exact ⟨he2, fun s h => by cases h⟩
    | some s =>
      have hf := List.mem_filter.mp he2
      refine ⟨hf.1, fun s' h => ?_⟩
      cases h
      exact of_decide_eq_true hf.2

set_option maxRecDepth 4000 in
/-- C5 counterexample: encoder process output is forwarded to the log
verbatim, so when ffmpeg itself prints the ingest URL the secret key
appears in a log line. -/
theorem c5_forwarded_output_leaks_key :
    (run_ffmpeg_logs "demo.mp4" "KEY123" false none
        (FFmpegOutcome.exits
          ["Output rtmp://a.rtmp.youtube.com/live2/KEY123 ok"])).any
      (fun l => containsStr l "KEY123") = true := by
  decide

/-- C5 (amended): the supervisor's own status messages never leak the
key — the whole supervisor-generated log stream is unchanged when the
secret stream key is replaced by any other key (the start message uses
only the first 8 command tokens, which stop before the output URL) —
but encoder process output lines are forwarded verbatim, without
redaction, so the key can appear in a log line only if the encoder
itself emits it. -/
theorem c5_supervisor_logs_key_independent (video_path : String)
    (k1 k2 : String) (is_shorts : Bool) (rtmp_url : Option String)
    (outcome : FFmpegOutcome) :
    run_ffmpeg_logs video_path k1 is_shorts rtmp_url outcome =
      run_ffmpeg_logs video_path k2 is_shorts rtmp_url outcome := by
  cases outcome <;> rfl

/-- C6: every encoder run — natural exit or exception — ends its log
stream with the terminal message emitted by the `finally` block, so
every session's log stream has a definite end marker. -/
theorem c6_terminal_log_line_always_last (video_path stream_key : String)
    (is_shorts : Bool) (rtmp_url : Option String) (outcome : FFmpegOutcome) :
    (run_ffmpeg_logs video_path stream_key is_shorts rtmp_url
        outcome).getLast? = some ffmpeg_final_msg := by
  cases outcome with
  | exits ls =>
    show (("Starting FFmpeg: " ++ _ ++ "... [RTMP URL hidden for security]") ::
      (ls.map pyStrip ++
        ["Streaming completed successfully", ffmpeg_final_msg])).getLast? = _
    rw [show ∀ x a : String, ∀ l : List String,
          x :: (l ++ [a, ffmpeg_final_msg]) =
            (x :: l ++ [a]) ++ [ffmpeg_final_msg] by intro x a l; simp,
        List.getLast?_concat]
  | raises ls e =>
    show (("Starting FFmpeg: " ++ _ ++ "... [RTMP URL hidden for security]") ::
      (ls.map pyStrip ++
        ["FFmpeg Error: " ++ e, ffmpeg_final_msg])).getLast? = _
    rw [show ∀ x a : String, ∀ l : List String,
          x :: (l ++ [a, ffmpeg_final_msg]) =
            (x :: l ++ [a]) ++ [ffmpeg_final_msg] by intro x a l; simp,
        List.getLast?_concat]

/-- C7: every successful `create_live_stream` call returns a result
whose `stream_id` is exactly the id of the stream resource created in
step (1) of the same call, and the trace contains the step-(3) bind
call associating the returned broadcast with that same stream id. -/
theorem c7_bind_uses_created_stream (env : YTEnv) (title description : String)
    (t : Nat) (tags : List String) (category_id privacy_status : String)
    (made_for_kids : Bool) (r : LiveInfo)
    (h : (create_live_stream env title description t tags category_id
        privacy_status made_for_kids).1 = some r) :
    ∃ s, env.streamInsert = some s ∧ r.stream_id = s.id ∧
      r.stream_key = s.streamName ∧
      APICall.bind r.broadcast_id s.id ∈
        (create_live_stream env title description t tags category_id
          privacy_status made_for_kids).2 := by
  cases hs : env.streamInsert with
  | none => simp [create_live_stream, hs] at h
  | some s =>
    cases hb : env.broadcastInsert with
    | none => simp [create_live_stream, hs, hb] at h
    | some bid =>
      by_cases hk : env.bindOk
      · refine ⟨s, rfl, ?_⟩
        simp only [create_live_stream, hs, hb, hk, if_true] at h ⊢
        obtain rfl := (Option.some.injEq _ _).mp h
        simp
      · simp [create_live_stream, hs, hb, hk] at h

/-- The remote API behaviour for the C7 witness: every step succeeds. -/
def c7env : YTEnv :=
  { streamInsert :=
      some { id := "stream-1", streamName := "sk-1",
             ingestionAddress := "rtmp://ingest" }
    broadcastInsert := some "bcast-1"
    bindOk := true }

/-- The result of the successful C7 witness call. -/
def c7result : LiveInfo :=
  { stream_key := "sk-1"
    stream_url := "rtmp://ingest"
    broadcast_id := "bcast-1"
    stream_id := "stream-1"
    watch_url := "https://www.youtube.com/watch?v=bcast-1"
    studio_url := "https://studio.youtube.com/video/bcast-1/livestreaming" }

/-- Witness for `c7_bind_uses_created_stream`: a concrete successful
call with tags `["a", "b"]` and privacy `unlisted`. -/
theorem c7_bind_witness :
    (create_live_stream c7env "T" "D" 1030 ["a", "b"] "20" "unlisted"
        false).1 = some c7result ∧
    ∃ s, c7env.streamInsert = some s ∧ c7result.stream_id = s.id ∧
      c7result.stream_key = s.streamName ∧
      APICall.bind c7result.broadcast_id s.id ∈
        (create_live_stream c7env "T" "D" 1030 ["a", "b"] "20" "unlisted"
          false).2 :=
  ⟨by decide,
   c7_bind_uses_created_stream c7env "T" "D" 1030 ["a", "b"] "20" "unlisted"
     false c7result (by decide)⟩

/-- C8: `get_broadcast_stream_key` returns `None` whenever the named
broadcast is absent or has no bound stream, and a populated result
only when the broadcast exists, carries a bound stream id, and that
stream exists — in which case every field of the result comes from the
found resources. -/
theorem c8_resolve_key_total (env : YTListEnv) (broadcast_id : String) :
    ((env.broadcasts.filter (fun b => b.id = broadcast_id)).head? = none →
      get_broadcast_stream_key env broadcast_id = none) ∧
    (∀ b, (env.broadcasts.filter (fun b => b.id = broadcast_id)).head? =
        some b → b.boundStreamId = none →
      get_broadcast_stream_key env broadcast_id = none) ∧
    (∀ r, get_broadcast_stream_key env broadcast_id = some r →
      ∃ b, b ∈ env.broadcasts ∧ b.id = broadcast_id ∧
        b.boundStreamId = some r.stream_id ∧
        ∃ s, s ∈ env.streams ∧ s.id = r.stream_id ∧
          r.stream_key = s.streamName ∧ r.stream_url = s.ingestionAddress) := by
  refine ⟨?_, ?_, ?_⟩
  · intro h
    simp [get_broadcast_stream_key, h]
  · intro b hb hbound
    simp [get_broadcast_stream_key, hb, hbound]
  · intro r hr
    unfold get_broadcast_stream_key at hr
    split at hr
    · cases hr
    · next b hb =>
      split at hr
      · cases hr
      · next sid hbound =>
        rw [if_neg] at hr
        · split at hr
          · cases hr
          · next s hs =>
            obtain rfl := (Option.some.injEq _ _).mp hr
            have hbmem := List.mem_filter.mp (List.mem_of_mem_head? hb)
            have hsmem := List.mem_filter.mp (List.mem_of_mem_head? hs)
            exact ⟨b, hbmem.1, of_decide_eq_true hbmem.2, hbound,
              s, hsmem.1, of_decide_eq_true hsmem.2, rfl, rfl⟩
        · intro hsid
          rw [if_pos hsid] at hr
          cases hr

/-- The platform tables for the C8 witness: one bound broadcast and
its stream. -/
def c8env : YTListEnv :=
  { broadcasts := [{ id := "bcast-9", boundStreamId := some "stream-9" }]
    streams := [{ id := "stream-9", streamName := "sk-9",
                  ingestionAddress := "rtmp://ingest9" }] }

/-- Witness for `c8_resolve_key_total`: instantiating the populated
branch at a concrete bound broadcast. -/
theorem c8_resolve_key_witness :
    get_broadcast_stream_key c8env "bcast-9" =
      some { stream_key := "sk-9", stream_url := "rtmp://ingest9",
             stream_id := "stream-9" } ∧
    ∃ b, b ∈ c8env.broadcasts ∧ b.id = "bcast-9" ∧
      b.boundStreamId = some "stream-9" ∧
      ∃ s, s ∈ c8env.streams ∧ s.id = "stream-9" ∧
        "sk-9" = s.streamName ∧ "rtmp://ingest9" = s.ingestionAddress :=
  ⟨by decide,
   (c8_resolve_key_total c8env "bcast-9").2.2
     { stream_key := "sk-9", stream_url := "rtmp://ingest9",
       stream_id := "stream-9" } (by decide)⟩

/-- C9: every broadcast-insert call issued by the Create YouTube Live
handler carries a scheduled start time of exactly the wall-clock at
the click plus 30 seconds. -/
theorem c9_scheduled_now_plus_30 (env : YTEnv) (now : Nat)
    (title description : String) (tags : List String)
    (category_id privacy_status : String) (made_for_kids : Bool)
    (body : BroadcastBody)
    (h : APICall.broadcastInsert body ∈
      (createYouTubeLiveClick env now title description tags category_id
        privacy_status made_for_kids).2) :
    body.scheduledStartTime = now + 30 := by
  unfold createYouTubeLiveClick at h
  cases hs : env.streamInsert with
  | none => simp [create_live_stream, hs] at h
  | some s =>
    cases hb : env.broadcastInsert with
    | none =>
      simp [create_live_stream, hs, hb] at h
      rw [h]
    | some bid =>
      by_cases hk : env.bindOk
      · simp [create_live_stream, hs, hb, hk] at h
        rw [h]
      · simp [create_live_stream, hs, hb, hk] at h
        rw [h]

/-- The remote API behaviour for the C9 witness. -/
def c9env : YTEnv :=
  { streamInsert :=
      some { id := "stream-2", streamName := "sk-2",
             ingestionAddress := "rtmp://ingest2" }
    broadcastInsert := some "bcast-2"
    bindOk := true }

/-- The broadcast body issued by the C9 witness call. -/
def c9body : BroadcastBody :=
  { title := "T"
    description := "D"
    scheduledStartTime := 1030
    privacyStatus := "public"
    selfDeclaredMadeForKids := false
    enableAutoStart := true
    enableAutoStop := true
    tags := none
    categoryId := some "20" }

/-- Witness for `c9_scheduled_now_plus_30` at wall-clock 1000. -/
theorem c9_scheduled_witness :
    APICall.broadcastInsert c9body ∈
      (createYouTubeLiveClick c9env 1000 "T" "D" [] "20" "public" false).2 ∧
    c9body.scheduledStartTime = 1000 + 30 :=
  ⟨by decide,
   c9_scheduled_now_plus_30 c9env 1000 "T" "D" [] "20" "public" false c9body
     (by decide)⟩

/-- C10: after every invocation of the live-log callback the buffer
holds at most 100 entries; the result is always a suffix of the old
buffer with the new entry appended (the most recent entries in
emission order); when the appended buffer exceeds 100 the result is
trimmed to exactly the 100 most recent entries, and otherwise it is
the whole appended buffer. -/
theorem c10_live_log_buffer_bound (live_logs : List String)
    (now_str msg : String) :
    (log_callback live_logs now_str msg).length ≤ 100 ∧
    log_callback live_logs now_str msg <:+
      (live_logs ++ ["[" ++ now_str ++ "] " ++ msg]) ∧
    (100 < (live_logs ++ ["[" ++ now_str ++ "] " ++ msg]).length →
      (log_callback live_logs now_str msg).length = 100) ∧
    ((live_logs ++ ["[" ++ now_str ++ "] " ++ msg]).length ≤ 100 →
      log_callback live_logs now_str msg =
        live_logs ++ ["[" ++ now_str ++ "] " ++ msg]) := by
  unfold log_callback
  by_cases h : (live_logs ++ ["[" ++ now_str ++ "] " ++ msg]).length > 100
  · rw [if_pos h]
    have hlen : ((live_logs ++ ["[" ++ now_str ++ "] " ++ msg]).drop
        ((live_logs ++ ["[" ++ now_str ++ "] " ++ msg]).length - 100)).length
        = 100 := by
      rw [List.length_drop]
      exact Nat.sub_sub_self (Nat.le_of_lt h)
    refine ⟨le_of_eq hlen, List.drop_suffix _ _, fun _ => hlen, fun hc => ?_⟩
    exact absurd h (not_lt.mpr hc)
  · rw [if_neg h]
    exact ⟨not_lt.mp h, List.suffix_refl _,
      fun hc => absurd hc h, fun _ => rfl⟩

end StreamApp
